import Mathlib

/-
Shallow embedding of the wgpu-demo-1 repository.

The embedding models the per-frame resource-update and draw-submission
protocol of the repository: each renderable object (Pentagon, Cube, Char)
owns a camera uniform, an elapsed-time uniform and a list of instances,
`prepare` produces a list of queued buffer-write events, and `render`
produces a list of render-pass commands.  GPU handles (pipelines, bind
groups, buffers) are modelled as symbolic identifiers; byte payloads are
lists of naturals below 256; `f32` values passed across the API boundary
are modelled by their 32-bit IEEE-754 bit patterns (naturals below 2^32),
so that `to_ne_bytes` is the exact little-endian byte split (the targets
of this repository are little-endian, where native = little endian).
Camera mathematics is carried out over an arbitrary linear-ordered field
together with a record of the real operations (square root, cotangent)
the formulas consume, so every definition stays executable; witnesses
instantiate the field with the rationals.
-/

namespace WgpuDemo

/-- `f32::to_ne_bytes` on a little-endian target, applied to the bit
pattern `t` of the float: the four bytes of `t`, least significant first. -/
def f32ToNeBytes (t : Nat) : List Nat :=
  [t % 256, t / 2 ^ 8 % 256, t / 2 ^ 16 % 256, t / 2 ^ 24 % 256]

/-- Reassemble a 4-byte little-endian payload into the 32-bit value. -/
def bytes4ToNat : List Nat → Nat
  | [b0, b1, b2, b3] => b0 + 2 ^ 8 * b1 + 2 ^ 16 * b2 + 2 ^ 24 * b3
  | _ => 0

/-- `wgpu::COPY_BUFFER_ALIGNMENT` (a constant of the wgpu crate). -/
def COPY_BUFFER_ALIGNMENT : Nat := 4

/-- `u64::next_power_of_two`: the smallest power of two that is greater
than or equal to the argument (`1` for `0`).  The source relies on the
non-overflowing case, which the claim's hypothesis restricts to. -/
def nextPowerOfTwo (n : Nat) : Nat := 2 ^ Nat.clog 2 n

/-- `next_copy_buffer_size` from `src/main.rs`:
`((size.next_power_of_two() + align_mask) & !align_mask).max(COPY_BUFFER_ALIGNMENT)`
with `align_mask = COPY_BUFFER_ALIGNMENT - 1 = 3`.  The u64 addition is
taken modulo `2^64`; `& !align_mask` clears the two low bits, i.e. rounds
down to a multiple of 4, written here as `/ 4 * 4`. -/
def next_copy_buffer_size (size : Nat) : Nat :=
  let align_mask := COPY_BUFFER_ALIGNMENT - 1
  let p := (nextPowerOfTwo size + align_mask) % 2 ^ 64
  max (p / COPY_BUFFER_ALIGNMENT * COPY_BUFFER_ALIGNMENT) COPY_BUFFER_ALIGNMENT

/-- The `Vertex` struct of `src/main.rs` (`repr(C)`, all-`f32` fields:
`pos: [f32; 2]`, `color: [f32; 3]`, `has_texture: [f32; 1]`,
`tex_coords: [f32; 2]`); each field is modelled by its f32 bit patterns. -/
structure MainVertex where
  pos : List Nat
  color : List Nat
  has_texture : List Nat
  tex_coords : List Nat

/-- `mem::size_of::<Vertex>()` for the `repr(C)` all-`f32` struct above:
2 + 3 + 1 + 2 four-byte floats, no padding. -/
def mainVertexSize : Nat := 4 * 2 + 4 * 3 + 4 * 1 + 4 * 2

/-- The pentagon index list of `src/main.rs` (`let indices = [0, 1, 4, 1,
2, 4, 2, 3, 4].to_vec();`), three triangles of a fan. -/
def mainIndices : List Nat := [0, 1, 4, 1, 2, 4, 2, 3, 4]

/-- Size in bytes of one `u32` index element. -/
def indexElementSize : Nat := 4

/-- Length in bytes of the `indices_raw` slice built in `run`:
`mem::size_of::<Vertex>() * indices.len()`. -/
def indicesRawLen : Nat := mainVertexSize * mainIndices.length

/-- A 3-component vector of scalars (`cgmath::Vector3`). -/
structure Vec3 (α : Type) where
  x : α
  y : α
  z : α
deriving DecidableEq

/-- A 4-component vector of scalars (`cgmath::Vector4`), used to state
what the depth-correction matrix does to a clip-space vector. -/
structure Vec4 (α : Type) where
  x : α
  y : α
  z : α
  w : α
deriving DecidableEq

/-- A 4x4 matrix of scalars (`cgmath::Matrix4`), row-major entries `mIJ`
(row `I`, column `J`) acting on column vectors. -/
structure Mat4 (α : Type) where
  m00 : α
  m01 : α
  m02 : α
  m03 : α
  m10 : α
  m11 : α
  m12 : α
  m13 : α
  m20 : α
  m21 : α
  m22 : α
  m23 : α
  m30 : α
  m31 : α
  m32 : α
  m33 : α
deriving DecidableEq

/-- The real-valued operations the camera formulas consume (square root
for vector normalization, cotangent of the half field-of-view for the
perspective projection), kept abstract so the embedding is executable
over any field. -/
structure RealOps (α : Type) where
  sqrt : α → α
  cot : α → α

/-- The trivial interpretation of the real operations over the rationals,
used to evaluate the embedding on concrete inputs. -/
def ratOps : RealOps ℚ := ⟨fun q => q, fun q => q⟩

section CameraMath

variable {α : Type} [Field α]

/-- Componentwise vector subtraction. -/
def vsub (a b : Vec3 α) : Vec3 α := ⟨a.x - b.x, a.y - b.y, a.z - b.z⟩

/-- Scalar multiplication of a vector. -/
def vscale (s : α) (a : Vec3 α) : Vec3 α := ⟨s * a.x, s * a.y, s * a.z⟩

/-- Dot product. -/
def vdot (a b : Vec3 α) : α := a.x * b.x + a.y * b.y + a.z * b.z

/-- Cross product. -/
def vcross (a b : Vec3 α) : Vec3 α :=
  ⟨a.y * b.z - a.z * b.y, a.z * b.x - a.x * b.z, a.x * b.y - a.y * b.x⟩

/-- `Vector3::normalize`: divide by the Euclidean length, whose square
root is taken by the abstract real operations. -/
def vnormalize (ops : RealOps α) (a : Vec3 α) : Vec3 α :=
  vscale (1 / ops.sqrt (vdot a a)) a

/-- `cgmath::Vector3::unit_z()`. -/
def unitZ : Vec3 α := ⟨0, 0, 1⟩

/-- The zero vector, against which `is_zero` compares. -/
def vzero : Vec3 α := ⟨0, 0, 0⟩

/-- The identity matrix (`cgmath::SquareMatrix::identity`). -/
def identity4 : Mat4 α :=
  ⟨1, 0, 0, 0, 0, 1, 0, 0, 0, 0, 1, 0, 0, 0, 0, 1⟩

/-- Matrix product of two 4x4 matrices. -/
def mul4 (A B : Mat4 α) : Mat4 α where
  m00 := A.m00 * B.m00 + A.m01 * B.m10 + A.m02 * B.m20 + A.m03 * B.m30
  m01 := A.m00 * B.m01 + A.m01 * B.m11 + A.m02 * B.m21 + A.m03 * B.m31
  m02 := A.m00 * B.m02 + A.m01 * B.m12 + A.m02 * B.m22 + A.m03 * B.m32
  m03 := A.m00 * B.m03 + A.m01 * B.m13 + A.m02 * B.m23 + A.m03 * B.m33
  m10 := A.m10 * B.m00 + A.m11 * B.m10 + A.m12 * B.m20 + A.m13 * B.m30
  m11 := A.m10 * B.m01 + A.m11 * B.m11 + A.m12 * B.m21 + A.m13 * B.m31
  m12 := A.m10 * B.m02 + A.m11 * B.m12 + A.m12 * B.m22 + A.m13 * B.m32
  m13 := A.m10 * B.m03 + A.m11 * B.m13 + A.m12 * B.m23 + A.m13 * B.m33
  m20 := A.m20 * B.m00 + A.m21 * B.m10 + A.m22 * B.m20 + A.m23 * B.m30
  m21 := A.m20 * B.m01 + A.m21 * B.m11 + A.m22 * B.m21 + A.m23 * B.m31
  m22 := A.m20 * B.m02 + A.m21 * B.m12 + A.m22 * B.m22 + A.m23 * B.m32
  m23 := A.m20 * B.m03 + A.m21 * B.m13 + A.m22 * B.m23 + A.m23 * B.m33
  m30 := A.m30 * B.m00 + A.m31 * B.m10 + A.m32 * B.m20 + A.m33 * B.m30
  m31 := A.m30 * B.m01 + A.m31 * B.m11 + A.m32 * B.m21 + A.m33 * B.m31
  m32 := A.m30 * B.m02 + A.m31 * B.m12 + A.m32 * B.m22 + A.m33 * B.m32
  m33 := A.m30 * B.m03 + A.m31 * B.m13 + A.m32 * B.m23 + A.m33 * B.m33

/-- Apply a 4x4 matrix to a column 4-vector. -/
def mulVec4 (A : Mat4 α) (v : Vec4 α) : Vec4 α where
  x := A.m00 * v.x + A.m01 * v.y + A.m02 * v.z + A.m03 * v.w
  y := A.m10 * v.x + A.m11 * v.y + A.m12 * v.z + A.m13 * v.w
  z := A.m20 * v.x + A.m21 * v.y + A.m22 * v.z + A.m23 * v.w
  w := A.m30 * v.x + A.m31 * v.y + A.m32 * v.z + A.m33 * v.w

/-- Modelled from the spec: the fixed correction matrix that remaps the
depth range from the [-1,1] convention to the [0,1] convention required
by the target graphics API (the camera source file is not under `src/`;
this is the standard `OPENGL_TO_WGPU_MATRIX`, halving and shifting the
z row). -/
def OPENGL_TO_WGPU_MATRIX : Mat4 α :=
  ⟨1, 0, 0, 0,
   0, 1, 0, 0,
   0, 0, 1 / 2, 1 / 2,
   0, 0, 0, 1⟩

/-- Modelled from the spec: the perspective projection matrix
`perspective(fovy, aspect, near, far)` (camera source not under `src/`);
the standard right-handed formula with `f = cot(fovy / 2)` supplied by
the abstract real operations. -/
def perspectiveMatrix (ops : RealOps α) (fovy aspect near far : α) : Mat4 α :=
  let f := ops.cot (fovy / 2)
  ⟨f / aspect, 0, 0, 0,
   0, f, 0, 0,
   0, 0, (far + near) / (near - far), 2 * far * near / (near - far),
   0, 0, -1, 0⟩

/-- Modelled from the spec: the `look_at(eye, target, up)` view matrix
(camera source not under `src/`); the standard right-handed formula. -/
def lookAtMatrix (ops : RealOps α) (eye target up : Vec3 α) : Mat4 α :=
  let f := vnormalize ops (vsub target eye)
  let s := vnormalize ops (vcross f up)
  let u := vcross s f
  ⟨s.x, s.y, s.z, -vdot eye s,
   u.x, u.y, u.z, -vdot eye u,
   -f.x, -f.y, -f.z, vdot eye f,
   0, 0, 0, 1⟩

/-- Modelled from the spec: the `Camera` struct (its source file is not
under `src/`): eye position, target point, up vector, aspect ratio,
vertical field of view, near and far planes. -/
structure Camera (α : Type) where
  eye : Vec3 α
  target : Vec3 α
  up : Vec3 α
  aspect : α
  fovy : α
  znear : α
  zfar : α

/-- Modelled from the spec: `Camera::build_view_projection_matrix` —
compute the look-at view matrix, multiply by the perspective projection,
apply the fixed depth-correction matrix; pure, returns a 4x4 matrix. -/
def Camera.build_view_projection_matrix (ops : RealOps α) (c : Camera α) : Mat4 α :=
  let view := lookAtMatrix ops c.eye c.target c.up
  let proj := perspectiveMatrix ops c.fovy c.aspect c.znear c.zfar
  mul4 OPENGL_TO_WGPU_MATRIX (mul4 proj view)

/-- Modelled from the spec: `Camera::update_aspect` replaces the stored
aspect ratio, with no validation of the input. -/
def Camera.update_aspect (c : Camera α) (aspect : α) : Camera α :=
  { c with aspect := aspect }

/-- Modelled from the spec: `CameraUniform`, the GPU-visible serialized
form of the camera's projection — a 4x4 matrix. -/
structure CameraUniform (α : Type) where
  view_proj : Mat4 α

/-- Modelled from the spec: `CameraUniform::new()` starts from the
identity matrix (the spec's "identity matrix at construction"). -/
def CameraUniform.new : CameraUniform α := ⟨identity4⟩

/-- Modelled from the spec: `CameraUniform::update_view_proj` recomputes
and stores the view-projection matrix of the given camera. -/
def CameraUniform.update_view_proj (ops : RealOps α) (_u : CameraUniform α)
    (c : Camera α) : CameraUniform α :=
  ⟨c.build_view_projection_matrix ops⟩

end CameraMath

/-- Symbolic identity of a GPU buffer owned by a renderable or by `run`. -/
inductive BufId where
  | cameraBuf
  | elapsedTimeBuf
  | meshVertex (i : Nat)
  | meshIndex (i : Nat)
  | instanceBuf
  | mainVertexBuf
  | mainIndexBuf
deriving DecidableEq

/-- One `queue.write_buffer(buffer, offset, data)` call. -/
structure WriteEvent where
  buf : BufId
  offset : Nat
  data : List Nat
deriving DecidableEq

/-- Symbolic identity of a bind group owned by a renderable. -/
inductive BindGroupId where
  | texture
  | camera
  | elapsedTime
deriving DecidableEq

/-- `wgpu::IndexFormat` as used by the repository (always `Uint32`). -/
inductive IndexFormat where
  | uint32
deriving DecidableEq

/-- One command recorded on the render pass.  `drawIndexed` mirrors
`draw_indexed(indexStart..indexEnd, baseVertex, instStart..instEnd)`. -/
inductive RenderCmd where
  | setPipeline
  | setBindGroup (slot : Nat) (group : BindGroupId)
  | setVertexBuffer (slot : Nat) (buf : BufId)
  | setIndexBuffer (buf : BufId) (format : IndexFormat)
  | drawIndexed (indexStart indexEnd baseVertex instStart instEnd : Nat)
deriving DecidableEq

/-- `Mesh` from `src/core/model.rs`, keeping the fields the draw protocol
reads (the vertex/index buffers are addressed symbolically by mesh
position). -/
structure MeshS where
  name : String
  num_elements : Nat
  materials : Nat
deriving DecidableEq

/-- `Model` from `src/core/model.rs`: meshes plus the material count. -/
structure ModelS where
  meshes : List MeshS
  materialsCount : Nat
deriving DecidableEq

/-- The rotation produced by `Quaternion::from_axis_angle(axis, Deg d)`,
kept symbolic (axis and angle in degrees). -/
inductive Rotation (α : Type) where
  | fromAxisAngleDeg (axis : Vec3 α) (deg : α)
deriving DecidableEq

/-- The `Instance` struct of `pentagon.rs`/`cube.rs`: a position plus a
rotation. -/
structure InstanceS (α : Type) where
  position : Vec3 α
  rotation : Rotation α
deriving DecidableEq

/-- The serialization of a `CameraUniform` (`[[f32; 4]; 4]`): the 16
entries in cgmath's column-major memory order. -/
def mat4Entries {α : Type} (m : Mat4 α) : List α :=
  [m.m00, m.m10, m.m20, m.m30,
   m.m01, m.m11, m.m21, m.m31,
   m.m02, m.m12, m.m22, m.m32,
   m.m03, m.m13, m.m23, m.m33]

/-- Byte payload of the camera-uniform write: each of the 16 scalars
encoded by the scalar encoder `enc` (4 bytes per f32 scalar), matching
`slice::from_raw_parts(view_proj.as_ptr(), size_of::<CameraUniform>())`. -/
def encodeMat {α : Type} (enc : α → List Nat) (m : Mat4 α) : List Nat :=
  (mat4Entries m).flatMap enc

section Renderables

variable {α : Type} [Field α] [DecidableEq α]

/-- The mutable state of `Pentagon` relevant to `prepare`/`render`. -/
structure PentagonState (α : Type) where
  camera_uniform : CameraUniform α
  instances : List (InstanceS α)
  model : ModelS

/-- The mutable state of `Cube` relevant to `prepare`/`render`. -/
structure CubeState (α : Type) where
  camera_uniform : CameraUniform α
  instances : List (InstanceS α)
  model : ModelS

/-- The state of `Char` relevant to `prepare`/`render`. -/
structure CharState where
  model : ModelS

/-- `NUM_INSTANCES_PER_ROW` from `create_instances` (both files). -/
def NUM_INSTANCES_PER_ROW : Nat := 10

/-- `INSTANCE_DISPLACEMENT = (10 * 0.5, 0.0, 10 * 0.5)`. -/
def INSTANCE_DISPLACEMENT : Vec3 α :=
  ⟨(NUM_INSTANCES_PER_ROW : α) * (1 / 2), 0, (NUM_INSTANCES_PER_ROW : α) * (1 / 2)⟩

/-- `Pentagon::create_instances`: grid of `num_row_instances` rows of 10,
position `(x, 2, z) - INSTANCE_DISPLACEMENT`, rotation by the
zero-position guard. -/
def Pentagon.create_instances (ops : RealOps α) (num_row_instances : Nat) :
    List (InstanceS α) :=
  (List.range num_row_instances).flatMap fun (z : Nat) =>
    (List.range NUM_INSTANCES_PER_ROW).map fun (x : Nat) =>
      let position : Vec3 α := vsub ⟨(x : α), 2, (z : α)⟩ INSTANCE_DISPLACEMENT
      let rotation :=
        if position = vzero then
          Rotation.fromAxisAngleDeg unitZ 0
        else
          Rotation.fromAxisAngleDeg (vnormalize ops position) 45
      ⟨position, rotation⟩

/-- `Cube::create_instances`: same grid with position
`(x * 3, -2, z * 3) - INSTANCE_DISPLACEMENT`. -/
def Cube.create_instances (ops : RealOps α) (num_row_instances : Nat) :
    List (InstanceS α) :=
  (List.range num_row_instances).flatMap fun (z : Nat) =>
    (List.range NUM_INSTANCES_PER_ROW).map fun (x : Nat) =>
      let position : Vec3 α := vsub ⟨((x * 3 : Nat) : α), -2, ((z * 3 : Nat) : α)⟩
        INSTANCE_DISPLACEMENT
      let rotation :=
        if position = vzero then
          Rotation.fromAxisAngleDeg unitZ 0
        else
          Rotation.fromAxisAngleDeg (vnormalize ops position) 45
      ⟨position, rotation⟩

/-- `Pentagon::prepare` (`impl Renderable for Pentagon`): on `Some
camera`, recompute the view projection into the camera uniform and queue
the 64-byte camera write; unconditionally queue the 4-byte elapsed-time
write.  Returns the updated state and the queued writes in order. -/
def Pentagon.prepare (ops : RealOps α) (enc : α → List Nat) (p : PentagonState α)
    (camera : Option (Camera α)) (elapsed_time : Nat) :
    PentagonState α × List WriteEvent :=
  match camera with
  | some c =>
    let cu := p.camera_uniform.update_view_proj ops c
    ({ p with camera_uniform := cu },
     [⟨BufId.cameraBuf, 0, encodeMat enc cu.view_proj⟩,
      ⟨BufId.elapsedTimeBuf, 0, f32ToNeBytes elapsed_time⟩])
  | none =>
    (p, [⟨BufId.elapsedTimeBuf, 0, f32ToNeBytes elapsed_time⟩])

/-- `Cube::prepare` (`impl Renderable for Cube`), same protocol as the
pentagon's. -/
def Cube.prepare (ops : RealOps α) (enc : α → List Nat) (c : CubeState α)
    (camera : Option (Camera α)) (elapsed_time : Nat) :
    CubeState α × List WriteEvent :=
  match camera with
  | some cam =>
    let cu := c.camera_uniform.update_view_proj ops cam
    ({ c with camera_uniform := cu },
     [⟨BufId.cameraBuf, 0, encodeMat enc cu.view_proj⟩,
      ⟨BufId.elapsedTimeBuf, 0, f32ToNeBytes elapsed_time⟩])
  | none =>
    (c, [⟨BufId.elapsedTimeBuf, 0, f32ToNeBytes elapsed_time⟩])

/-- `Char::prepare` (`impl Renderable for Char`): an empty body — no
state change and no queued writes. -/
def Char.prepare (c : CharState) (_camera : Option (Camera α))
    (_elapsed_time : Nat) : CharState × List WriteEvent :=
  (c, [])

/-- The per-mesh loop shared by every `render` implementation: for the
mesh at position `i`, bind its vertex buffer at slot 0 and its index
buffer, then `draw_indexed(0..num_elements, 0, 0..instEnd)`. -/
def meshCmds (instEnd : Nat) : Nat → List MeshS → List RenderCmd
  | _, [] => []
  | i, m :: rest =>
    RenderCmd.setVertexBuffer 0 (BufId.meshVertex i) ::
    RenderCmd.setIndexBuffer (BufId.meshIndex i) IndexFormat.uint32 ::
    RenderCmd.drawIndexed 0 m.num_elements 0 0 instEnd ::
    meshCmds instEnd (i + 1) rest

/-- `Pentagon::render`: pipeline, bind groups 0/1/2, instance data at
vertex slot 1, then the per-mesh loop with `0..instances.len()`. -/
def Pentagon.render (p : PentagonState α) : List RenderCmd :=
  RenderCmd.setPipeline ::
  RenderCmd.setBindGroup 0 BindGroupId.texture ::
  RenderCmd.setBindGroup 1 BindGroupId.camera ::
  RenderCmd.setBindGroup 2 BindGroupId.elapsedTime ::
  RenderCmd.setVertexBuffer 1 BufId.instanceBuf ::
  meshCmds p.instances.length 0 p.model.meshes

/-- `Cube::render`: identical command sequence over the cube's state. -/
def Cube.render (c : CubeState α) : List RenderCmd :=
  RenderCmd.setPipeline ::
  RenderCmd.setBindGroup 0 BindGroupId.texture ::
  RenderCmd.setBindGroup 1 BindGroupId.camera ::
  RenderCmd.setBindGroup 2 BindGroupId.elapsedTime ::
  RenderCmd.setVertexBuffer 1 BufId.instanceBuf ::
  meshCmds c.instances.length 0 c.model.meshes

/-- `Char::render`: pipeline, texture bind group at slot 0 only, then the
per-mesh loop with instance range `0..1` (no instancing). -/
def Char.render (c : CharState) : List RenderCmd :=
  RenderCmd.setPipeline ::
  RenderCmd.setBindGroup 0 BindGroupId.texture ::
  meshCmds 1 0 c.model.meshes

end Renderables

/-- `ModelVertex` from `src/core/model.rs` (`pos: [f32; 3]`,
`tex_coords: [f32; 2]`); the f32 literals are carried as the rationals
they are written as in the source. -/
structure ModelVertexS where
  pos : Vec3 ℚ
  tex_coords : ℚ × ℚ
deriving DecidableEq

/-- The five pentagon vertices of `Pentagon::prepare_model`. -/
def pentagonVertices : List ModelVertexS :=
  [⟨⟨-0.0868241, 0.49240386, 0⟩, (0.4131759, 0.00759614)⟩,
   ⟨⟨-0.49513406, 0.06958647, 0⟩, (0.0048659444, 0.43041354)⟩,
   ⟨⟨-0.21918549, -0.44939706, 0⟩, (0.28081453, 0.949397)⟩,
   ⟨⟨0.35966998, -0.3473291, 0⟩, (0.85967, 0.84732914)⟩,
   ⟨⟨0.44147372, 0.2347359, 0⟩, (0.9414737, 0.2652641)⟩]

/-- The nine pentagon-fan indices of `Pentagon::prepare_model`. -/
def pentagonIndices : List Nat := [0, 1, 4, 1, 2, 4, 2, 3, 4]

/-- `Pentagon::prepare_model`: one mesh named "pentagon" whose
`num_elements` is `indices.len()`, one material. -/
def Pentagon.prepare_model : ModelS :=
  { meshes := [{ name := "pentagon",
                 num_elements := pentagonIndices.length,
                 materials := 1 }],
    materialsCount := 1 }

/-- The four quad vertices of `Char::prepare_model`. -/
def charVertices : List ModelVertexS :=
  [⟨⟨-0.9, 0.9, 0⟩, (0, 0)⟩,
   ⟨⟨-0.9, -0.9, 0⟩, (0, 1)⟩,
   ⟨⟨0.9, -0.9, 0⟩, (1, 1)⟩,
   ⟨⟨0.9, 0.9, 0⟩, (1, 0)⟩]

/-- The six quad indices of `Char::prepare_model`. -/
def charIndices : List Nat := [0, 1, 3, 1, 2, 3]

/-- `Char::prepare_model`: one mesh named "char" whose `num_elements` is
`indices.len()`, one material. -/
def Char.prepare_model : ModelS :=
  { meshes := [{ name := "char",
                 num_elements := charIndices.length,
                 materials := 1 }],
    materialsCount := 1 }

/-- Recognizer for indexed draw commands. -/
def isDraw : RenderCmd → Bool
  | RenderCmd.drawIndexed _ _ _ _ _ => true
  | _ => false

/-- The panic message of the frame-acquisition `expect` in `run`. -/
def frameAcquireFailureMsg : String := "Failed to acquire next swap chain texture"

/-- The panic message of the adapter-request `expect` in `run`. -/
def adapterFailureMsg : String := "Failed to find an appropriate adapter"

/-- The panic message of the device-request `expect` in `run`. -/
def deviceFailureMsg : String := "Failed to create device"

/-- Outcome of one `RedrawRequested` arm of the event loop. -/
inductive RedrawOutcome where
  | panicked (msg : String)
  | presented (cmds : List RenderCmd)
deriving DecidableEq

/-- The `RedrawRequested` arm of `run`: a single
`surface.get_current_texture()` attempt; on failure the `expect` panics
with the fixed message (no retry, no backoff), on success the pass is
recorded, submitted and presented. -/
def redrawHandler (frameAcquired : Bool) : RedrawOutcome :=
  if frameAcquired then
    RedrawOutcome.presented
      [RenderCmd.setPipeline,
       RenderCmd.setBindGroup 0 BindGroupId.texture,
       RenderCmd.setVertexBuffer 0 BufId.mainVertexBuf,
       RenderCmd.setIndexBuffer BufId.mainIndexBuf IndexFormat.uint32,
       RenderCmd.drawIndexed 0 mainIndices.length 0 0 1]
  else
    RedrawOutcome.panicked frameAcquireFailureMsg

/-- The fallible initialization steps of `run`, in source order. -/
inductive InitStage where
  | imageDecode
  | adapterRequest
  | deviceRequest
deriving DecidableEq

/-- Outcome of the initialization part of `run`. -/
inductive InitOutcome where
  | panickedAt (stage : InitStage)
  | ready
deriving DecidableEq

/-- The initialization of `run` with the three fallible external results
injected: image decode (`unwrap`), adapter request (`expect`), device
request (`expect`) — each failure panics, there is no recovery path. -/
def runInit (imageOk adapterOk deviceOk : Bool) : InitOutcome :=
  if imageOk = false then InitOutcome.panickedAt InitStage.imageDecode
  else if adapterOk = false then InitOutcome.panickedAt InitStage.adapterRequest
  else if deviceOk = false then InitOutcome.panickedAt InitStage.deviceRequest
  else InitOutcome.ready

/-!  Theorems for the claims. -/

/-- C9: for every u64 `size` whose `next_power_of_two` does not overflow
(`size ≤ 2^63`), `next_copy_buffer_size size` is a multiple of
`COPY_BUFFER_ALIGNMENT`, at least `COPY_BUFFER_ALIGNMENT`, and at least
`size`. -/
theorem next_copy_buffer_size_sound (size : Nat) (h : size ≤ 2 ^ 63) :
    next_copy_buffer_size size % COPY_BUFFER_ALIGNMENT = 0 ∧
    COPY_BUFFER_ALIGNMENT ≤ next_copy_buffer_size size ∧
    size ≤ next_copy_buffer_size size := by
  have h2 : (1 : Nat) < 2 := by norm_num
  have hclog : Nat.clog 2 size ≤ 63 := (Nat.le_pow_iff_clog_le h2).mp h
  have hnpot_le : nextPowerOfTwo size ≤ 2 ^ 63 :=
    Nat.pow_le_pow_right (by norm_num) hclog
  have hsize_le : size ≤ nextPowerOfTwo size := Nat.le_pow_clog h2 size
  have hlt : nextPowerOfTwo size + 3 < 18446744073709551616 := by
    have hp : (2 : Nat) ^ 63 = 9223372036854775808 := by norm_num
    omega
  have e : next_copy_buffer_size size
      = max ((nextPowerOfTwo size + 3) / 4 * 4) 4 := by
    simp only [next_copy_buffer_size, COPY_BUFFER_ALIGNMENT]
    norm_num
    rw [Nat.mod_eq_of_lt hlt]
  rw [e]
  simp only [COPY_BUFFER_ALIGNMENT]
  omega

/-- Witness for C9 at `size = 5`. -/
theorem next_copy_buffer_size_sound_witness :
    (5 : Nat) ≤ 2 ^ 63 ∧
    (next_copy_buffer_size 5 % COPY_BUFFER_ALIGNMENT = 0 ∧
     COPY_BUFFER_ALIGNMENT ≤ next_copy_buffer_size 5 ∧
     5 ≤ next_copy_buffer_size 5) :=
  ⟨by norm_num, next_copy_buffer_size_sound 5 (by norm_num)⟩

/-- C10: the byte length of the `indices_raw` slice in `run` is
`size_of::<Vertex>() * indices.len() = 32 * 9 = 288` bytes — computed
from the `Vertex` struct size, not from the 4-byte index element size —
which exceeds the `4 * 9 = 36` bytes the nine `u32` indices occupy. -/
theorem indices_raw_len_oversized :
    indicesRawLen = 288 ∧ mainVertexSize = 32 ∧ mainIndices.length = 9 ∧
    indexElementSize * mainIndices.length = 36 ∧ 36 < indicesRawLen := by
  decide

/-- C8: a failed frame acquisition on redraw panics with the fixed
message (and only a failed acquisition does — one attempt, no retry or
backoff), and every fallible initialization step (image decode, adapter
request, device request) aborts rather than recovers: `runInit` reaches
`ready` exactly when all three succeed. -/
theorem fail_fast_no_retry :
    redrawHandler false = RedrawOutcome.panicked frameAcquireFailureMsg ∧
    (∀ ok : Bool,
      redrawHandler ok = RedrawOutcome.panicked frameAcquireFailureMsg ↔ ok = false) ∧
    (∀ i a d : Bool,
      runInit i a d = InitOutcome.ready ↔ i = true ∧ a = true ∧ d = true) := by
  refine ⟨rfl, ?_, ?_⟩ <;> decide

/-- Witness for C8: the panic equation and a fully successful init. -/
theorem fail_fast_no_retry_witness :
    redrawHandler false = RedrawOutcome.panicked frameAcquireFailureMsg ∧
    runInit true true true = InitOutcome.ready :=
  ⟨fail_fast_no_retry.1,
   (fail_fast_no_retry.2.2 true true true).mpr ⟨rfl, rfl, rfl⟩⟩

/-- C6: under the spec's preconditions, `build_view_projection_matrix`
is exactly `depth_correction * perspective(fovy, aspect, near, far) *
look_at(eye, target, up)` (a pure function of the camera), and the
depth-correction matrix remaps the depth coordinate by
`z ↦ z/2 + w/2`, sending clip depth `-1` (with `w = 1`) to `0` and `1`
to `1`. -/
theorem build_view_projection_decomposition {α : Type} [LinearOrderedField α]
    (ops : RealOps α) (c : Camera α)
    (ha : 0 < c.aspect) (hf0 : 0 < c.fovy) (hf1 : c.fovy < 180)
    (hn : 0 < c.znear) (hfar : c.znear < c.zfar) :
    c.build_view_projection_matrix ops
      = mul4 OPENGL_TO_WGPU_MATRIX
          (mul4 (perspectiveMatrix ops c.fovy c.aspect c.znear c.zfar)
                (lookAtMatrix ops c.eye c.target c.up)) ∧
    (∀ v : Vec4 α, mulVec4 OPENGL_TO_WGPU_MATRIX v
        = ⟨v.x, v.y, v.z / 2 + v.w / 2, v.w⟩) ∧
    (∀ x y : α, (mulVec4 OPENGL_TO_WGPU_MATRIX ⟨x, y, -1, 1⟩).z = 0 ∧
                (mulVec4 OPENGL_TO_WGPU_MATRIX ⟨x, y, 1, 1⟩).z = 1) := by
  refine ⟨rfl, ?_, ?_⟩
  · intro v
    simp only [mulVec4, OPENGL_TO_WGPU_MATRIX, Vec4.mk.injEq]
    refine ⟨by ring, by ring, by ring, by ring⟩
  · intro x y
    constructor <;>
      · simp only [mulVec4, OPENGL_TO_WGPU_MATRIX]
        ring

/-- Camera used to instantiate the C6 theorem. -/
def camC6 : Camera ℚ :=
  { eye := ⟨0, 1, 2⟩, target := ⟨0, 0, 0⟩, up := ⟨0, 1, 0⟩,
    aspect := 4 / 3, fovy := 45, znear := 1 / 10, zfar := 100 }

/-- Witness for C6 at a concrete camera over the rationals. -/
theorem build_view_projection_decomposition_witness :
    (0 < camC6.aspect ∧ 0 < camC6.fovy ∧ camC6.fovy < 180 ∧
     0 < camC6.znear ∧ camC6.znear < camC6.zfar) ∧
    camC6.build_view_projection_matrix ratOps
      = mul4 OPENGL_TO_WGPU_MATRIX
          (mul4 (perspectiveMatrix ratOps camC6.fovy camC6.aspect camC6.znear camC6.zfar)
                (lookAtMatrix ratOps camC6.eye camC6.target camC6.up)) ∧
    (mulVec4 OPENGL_TO_WGPU_MATRIX (⟨3, 4, -1, 1⟩ : Vec4 ℚ)).z = 0 := by
  have H := build_view_projection_decomposition ratOps camC6
    (by norm_num [camC6]) (by norm_num [camC6]) (by norm_num [camC6])
    (by norm_num [camC6]) (by norm_num [camC6])
  exact ⟨⟨by norm_num [camC6], by norm_num [camC6], by norm_num [camC6],
          by norm_num [camC6], by norm_num [camC6]⟩,
         H.1, (H.2.2 3 4).1⟩

/-- Helper for C7: the whole first (x-scale) row of the view-projection
matrix scales as `cot(fovy/2) / aspect` times the corresponding view-row
entry, so multiplying it by the aspect ratio removes the aspect
dependence entirely. -/
theorem aspect_row_scaled {α : Type} [Field α] (ops : RealOps α)
    (c : Camera α) (x : α) (hx : x ≠ 0) :
    x * ((c.update_aspect x).build_view_projection_matrix ops).m00
        = ops.cot (c.fovy / 2) * (lookAtMatrix ops c.eye c.target c.up).m00 ∧
    x * ((c.update_aspect x).build_view_projection_matrix ops).m01
        = ops.cot (c.fovy / 2) * (lookAtMatrix ops c.eye c.target c.up).m01 ∧
    x * ((c.update_aspect x).build_view_projection_matrix ops).m02
        = ops.cot (c.fovy / 2) * (lookAtMatrix ops c.eye c.target c.up).m02 ∧
    x * ((c.update_aspect x).build_view_projection_matrix ops).m03
        = ops.cot (c.fovy / 2) * (lookAtMatrix ops c.eye c.target c.up).m03 := by
  refine ⟨?_, ?_, ?_, ?_⟩ <;>
    · simp only [Camera.build_view_projection_matrix, Camera.update_aspect,
        perspectiveMatrix, OPENGL_TO_WGPU_MATRIX, mul4]
      field_simp

/-- C7: `update_aspect` replaces exactly the stored aspect ratio (every
other camera field is untouched, and any value — validation-free — is
stored), and the x-scale row of a subsequently built view-projection
matrix is proportional to `1 / aspect`: scaling it by the aspect yields
the same value for any two nonzero aspects. -/
theorem update_aspect_only_and_x_scale {α : Type} [Field α]
    (ops : RealOps α) (c : Camera α) (a b : α) (ha : a ≠ 0) (hb : b ≠ 0) :
    (c.update_aspect a).aspect = a ∧
    (c.update_aspect a).eye = c.eye ∧
    (c.update_aspect a).target = c.target ∧
    (c.update_aspect a).up = c.up ∧
    (c.update_aspect a).fovy = c.fovy ∧
    (c.update_aspect a).znear = c.znear ∧
    (c.update_aspect a).zfar = c.zfar ∧
    (a * ((c.update_aspect a).build_view_projection_matrix ops).m00
       = b * ((c.update_aspect b).build_view_projection_matrix ops).m00) ∧
    (a * ((c.update_aspect a).build_view_projection_matrix ops).m01
       = b * ((c.update_aspect b).build_view_projection_matrix ops).m01) ∧
    (a * ((c.update_aspect a).build_view_projection_matrix ops).m02
       = b * ((c.update_aspect b).build_view_projection_matrix ops).m02) ∧
    (a * ((c.update_aspect a).build_view_projection_matrix ops).m03
       = b * ((c.update_aspect b).build_view_projection_matrix ops).m03) := by
  have Ha := aspect_row_scaled ops c a ha
  have Hb := aspect_row_scaled ops c b hb
  refine ⟨rfl, rfl, rfl, rfl, rfl, rfl, rfl, ?_, ?_, ?_, ?_⟩
  · rw [Ha.1, Hb.1]
  · rw [Ha.2.1, Hb.2.1]
  · rw [Ha.2.2.1, Hb.2.2.1]
  · rw [Ha.2.2.2, Hb.2.2.2]

/-- Camera used to instantiate the C7 theorem. -/
def camC7 : Camera ℚ :=
  { eye := ⟨1, 2, 3⟩, target := ⟨0, 0, 0⟩, up := ⟨0, 1, 0⟩,
    aspect := 1, fovy := 60, znear := 1, zfar := 50 }

/-- Witness for C7 at aspects `2` and `4` over the rationals. -/
theorem update_aspect_only_and_x_scale_witness :
    (2 : ℚ) ≠ 0 ∧ (4 : ℚ) ≠ 0 ∧
    (camC7.update_aspect 2).aspect = 2 ∧
    (camC7.update_aspect 2).fovy = camC7.fovy ∧
    2 * ((camC7.update_aspect 2).build_view_projection_matrix ratOps).m00
      = 4 * ((camC7.update_aspect 4).build_view_projection_matrix ratOps).m00 := by
  have H := update_aspect_only_and_x_scale ratOps camC7 2 4
    (by norm_num) (by norm_num)
  exact ⟨by norm_num, by norm_num, H.1, H.2.2.2.2.1, H.2.2.2.2.2.2.2.1⟩

/-- A concrete pentagon state over the rationals: fresh camera uniform,
no instances yet, the pentagon-fan model. -/
def pstate0 : PentagonState ℚ :=
  { camera_uniform := CameraUniform.new, instances := [],
    model := Pentagon.prepare_model }

/-- A concrete cube state over the rationals (the cube model is loaded
from an asset; a one-mesh stand-in with 36 indices). -/
def cstate0 : CubeState ℚ :=
  { camera_uniform := CameraUniform.new, instances := [],
    model := { meshes := [{ name := "cube", num_elements := 36, materials := 1 }],
               materialsCount := 1 } }

/-- A concrete char state: the quad model of `Char::prepare_model`. -/
def chstate0 : CharState := { model := Char.prepare_model }

/-- C1 amended: for Pentagon and Cube, `prepare(queue, None, t)` leaves
the camera uniform unaltered, queues no camera-buffer write, and queues
exactly one write — the 4-byte native(little)-endian IEEE-754 encoding
of `t` at offset 0 of the elapsed-time buffer; the elapsed-time write is
queued for every value of the camera argument.  `Char::prepare`, whose
body is empty, queues no write at all. -/
theorem prepare_none_elapsed_only {α : Type} [Field α] [DecidableEq α]
    (ops : RealOps α) (enc : α → List Nat)
    (p : PentagonState α) (cu : CubeState α) (ch : CharState)
    (camera : Option (Camera α)) (t : Nat) (ht : t < 2 ^ 32) :
    (Pentagon.prepare ops enc p none t).1.camera_uniform = p.camera_uniform ∧
    (Pentagon.prepare ops enc p none t).2
      = [⟨BufId.elapsedTimeBuf, 0, f32ToNeBytes t⟩] ∧
    (Cube.prepare ops enc cu none t).1.camera_uniform = cu.camera_uniform ∧
    (Cube.prepare ops enc cu none t).2
      = [⟨BufId.elapsedTimeBuf, 0, f32ToNeBytes t⟩] ∧
    (⟨BufId.elapsedTimeBuf, 0, f32ToNeBytes t⟩ : WriteEvent)
      ∈ (Pentagon.prepare ops enc p camera t).2 ∧
    (⟨BufId.elapsedTimeBuf, 0, f32ToNeBytes t⟩ : WriteEvent)
      ∈ (Cube.prepare ops enc cu camera t).2 ∧
    (∀ ev ∈ (Pentagon.prepare ops enc p none t).2, ev.buf ≠ BufId.cameraBuf) ∧
    (∀ ev ∈ (Cube.prepare ops enc cu none t).2, ev.buf ≠ BufId.cameraBuf) ∧
    (f32ToNeBytes t).length = 4 ∧
    bytes4ToNat (f32ToNeBytes t) = t ∧
    (Char.prepare ch camera t).2 = [] := by
  refine ⟨rfl, rfl, rfl, rfl, ?_, ?_, ?_, ?_, rfl, ?_, rfl⟩
  · cases camera <;> simp [Pentagon.prepare]
  · cases camera <;> simp [Cube.prepare]
  · intro ev h
    simp only [Pentagon.prepare, List.mem_singleton] at h
    subst h
    simp
  · intro ev h
    simp only [Cube.prepare, List.mem_singleton] at h
    subst h
    simp
  · have ht' : t < 4294967296 := by
      norm_num at ht
      omega
    simp only [f32ToNeBytes, bytes4ToNat]
    norm_num
    omega

/-- Witness for C1 (amended) over the rationals at
`t = 1065353216` (the bit pattern of `1.0f32`). -/
theorem prepare_none_elapsed_only_witness :
    (1065353216 : Nat) < 2 ^ 32 ∧
    (Pentagon.prepare ratOps (fun _ => []) pstate0 none 1065353216).2
      = [⟨BufId.elapsedTimeBuf, 0, f32ToNeBytes 1065353216⟩] ∧
    bytes4ToNat (f32ToNeBytes 1065353216) = 1065353216 ∧
    (Char.prepare (α := ℚ) chstate0 none 1065353216).2 = [] := by
  have H := prepare_none_elapsed_only (α := ℚ) ratOps (fun _ => [])
    pstate0 cstate0 chstate0 none 1065353216 (by norm_num)
  obtain ⟨_, h2, _, _, _, _, _, _, _, h10, h11⟩ := H
  exact ⟨by norm_num, h2, h10, h11⟩

/-- Counterexample for C1 as stated: `Char::prepare(queue, None, t)`
queues no write at all — in particular not the 4-byte elapsed-time
write the claim requires of every Renderable. -/
theorem char_prepare_no_write_cex :
    (Char.prepare (α := ℚ) chstate0 none 1065353216).2 = [] ∧
    ((Char.prepare (α := ℚ) chstate0 none 1065353216).2).length = 0 ∧
    (f32ToNeBytes 1065353216).length = 4 :=
  ⟨rfl, rfl, rfl⟩

/-- Concatenating equal-length encodings is injective on equal-length
scalar lists. -/
theorem flatMap_enc_inj {α : Type} (enc : α → List Nat)
    (hlen : ∀ x, (enc x).length = 4) (hinj : Function.Injective enc) :
    ∀ l1 l2 : List α, l1.length = l2.length →
      (l1.flatMap enc = l2.flatMap enc ↔ l1 = l2) := by
  intro l1
  induction l1 with
  | nil =>
    intro l2 h
    cases l2 with
    | nil => simp
    | cons b t => simp at h
  | cons a t ih =>
    intro l2 h
    cases l2 with
    | nil => simp at h
    | cons b t2 =>
      simp only [List.flatMap_cons]
      constructor
      · intro he
        obtain ⟨h1, h2⟩ := List.append_inj he (by rw [hlen, hlen])
        have hab : a = b := hinj h1
        subst hab
        have htt : t = t2 := (ih t2 (by simpa using h)).mp h2
        rw [htt]
      · intro he
        cases he
        rfl

/-- The 16-entry serialization determines the matrix. -/
theorem mat4Entries_inj {α : Type} (m1 m2 : Mat4 α)
    (h : mat4Entries m1 = mat4Entries m2) : m1 = m2 := by
  obtain ⟨a0, a1, a2, a3, a4, a5, a6, a7, a8, a9, a10, a11, a12, a13, a14, a15⟩ := m1
  obtain ⟨b0, b1, b2, b3, b4, b5, b6, b7, b8, b9, b10, b11, b12, b13, b14, b15⟩ := m2
  simp only [mat4Entries, List.cons.injEq, and_true] at h
  simp_all

/-- Camera payloads coincide exactly when the serialized matrices do,
for any injective 4-byte scalar encoding. -/
theorem encodeMat_inj_iff {α : Type} (enc : α → List Nat)
    (hlen : ∀ x, (enc x).length = 4) (hinj : Function.Injective enc)
    (m1 m2 : Mat4 α) :
    encodeMat enc m1 = encodeMat enc m2 ↔ m1 = m2 := by
  constructor
  · intro h
    exact mat4Entries_inj m1 m2
      ((flatMap_enc_inj enc hlen hinj (mat4Entries m1) (mat4Entries m2)
        (by simp [mat4Entries])).mp h)
  · rintro rfl
    rfl

/-- C2: for Pentagon and Cube, each `prepare(queue, Some(camera), t)`
call queues a camera-buffer write of the recomputed view-projection
matrix at offset 0 (followed by the elapsed-time write); for any
injective 4-bytes-per-scalar encoding the camera payload is exactly
64 bytes (16 four-byte floats), and two calls with two camera states
produce payloads that differ exactly when the recomputed matrices
differ. -/
theorem prepare_some_camera_64 {α : Type} [Field α] [DecidableEq α]
    (ops : RealOps α) (enc : α → List Nat)
    (hlen : ∀ x, (enc x).length = 4) (hinj : Function.Injective enc)
    (p : PentagonState α) (cu : CubeState α)
    (c1 c2 : Camera α) (t1 t2 : Nat) :
    (Pentagon.prepare ops enc p (some c1) t1).2
      = [⟨BufId.cameraBuf, 0, encodeMat enc (c1.build_view_projection_matrix ops)⟩,
         ⟨BufId.elapsedTimeBuf, 0, f32ToNeBytes t1⟩] ∧
    (Pentagon.prepare ops enc (Pentagon.prepare ops enc p (some c1) t1).1
        (some c2) t2).2
      = [⟨BufId.cameraBuf, 0, encodeMat enc (c2.build_view_projection_matrix ops)⟩,
         ⟨BufId.elapsedTimeBuf, 0, f32ToNeBytes t2⟩] ∧
    (Cube.prepare ops enc cu (some c1) t1).2
      = [⟨BufId.cameraBuf, 0, encodeMat enc (c1.build_view_projection_matrix ops)⟩,
         ⟨BufId.elapsedTimeBuf, 0, f32ToNeBytes t1⟩] ∧
    (Cube.prepare ops enc (Cube.prepare ops enc cu (some c1) t1).1
        (some c2) t2).2
      = [⟨BufId.cameraBuf, 0, encodeMat enc (c2.build_view_projection_matrix ops)⟩,
         ⟨BufId.elapsedTimeBuf, 0, f32ToNeBytes t2⟩] ∧
    (encodeMat enc (c1.build_view_projection_matrix ops)).length = 64 ∧
    (encodeMat enc (c2.build_view_projection_matrix ops)).length = 64 ∧
    (encodeMat enc (c1.build_view_projection_matrix ops)
        = encodeMat enc (c2.build_view_projection_matrix ops)
      ↔ c1.build_view_projection_matrix ops = c2.build_view_projection_matrix ops) := by
  refine ⟨rfl, rfl, rfl, rfl, ?_, ?_, encodeMat_inj_iff enc hlen hinj _ _⟩ <;>
    simp [encodeMat, mat4Entries, hlen]

/-- A concrete injective 4-byte scalar encoding over the rationals:
numerator magnitude, numerator sign flag, denominator, padding. -/
def encQ (q : ℚ) : List Nat :=
  [q.num.natAbs, if q.num < 0 then 1 else 0, q.den, 0]

/-- `encQ` is injective. -/
theorem encQ_injective : Function.Injective encQ := by
  intro x y h
  simp only [encQ, List.cons.injEq, and_true] at h
  obtain ⟨h1, h2, h3⟩ := h
  have hnum : x.num = y.num := by
    by_cases hx : x.num < 0 <;> by_cases hy : y.num < 0 <;>
      simp [hx, hy] at h2 <;> omega
  exact Rat.ext hnum h3

/-- Witness for C2 over the rationals with the `encQ` encoding and two
concrete cameras. -/
theorem prepare_some_camera_64_witness :
    (Pentagon.prepare ratOps encQ pstate0 (some camC6) 1065353216).2
      = [⟨BufId.cameraBuf, 0, encodeMat encQ (camC6.build_view_projection_matrix ratOps)⟩,
         ⟨BufId.elapsedTimeBuf, 0, f32ToNeBytes 1065353216⟩] ∧
    (encodeMat encQ (camC6.build_view_projection_matrix ratOps)).length = 64 := by
  have H := prepare_some_camera_64 (α := ℚ) ratOps encQ (fun x => rfl)
    encQ_injective pstate0 cstate0 camC6 camC7 1065353216 1073741824
  exact ⟨H.1, H.2.2.2.2.1⟩

/-- The draw commands of the per-mesh loop: exactly one indexed draw per
mesh, indices `0..num_elements`, base vertex 0, instances `0..instEnd`. -/
theorem meshCmds_filter_draw (n : Nat) (ms : List MeshS) :
    ∀ i : Nat, (meshCmds n i ms).filter isDraw
      = ms.map fun m => RenderCmd.drawIndexed 0 m.num_elements 0 0 n := by
  induction ms with
  | nil => intro i; rfl
  | cons m rest ih =>
    intro i
    simp [meshCmds, isDraw, List.filter, ih (i + 1)]

/-- The per-mesh loop binds the mesh vertex buffer at slot 0 and the
mesh index buffer (Uint32) for every mesh position. -/
theorem meshCmds_mem_binds (n : Nat) (ms : List MeshS) :
    ∀ i j : Nat, j < ms.length →
      RenderCmd.setVertexBuffer 0 (BufId.meshVertex (i + j)) ∈ meshCmds n i ms ∧
      RenderCmd.setIndexBuffer (BufId.meshIndex (i + j)) IndexFormat.uint32
        ∈ meshCmds n i ms := by
  induction ms with
  | nil =>
    intro i j hj
    exact absurd hj (Nat.not_lt_zero j)
  | cons m rest ih =>
    intro i j hj
    cases j with
    | zero =>
      constructor
      · exact List.mem_cons_self _ _
      · exact List.mem_cons_of_mem _ (List.mem_cons_self _ _)
    | succ j =>
      have hlt : j < rest.length := Nat.lt_of_succ_lt_succ hj
      have H := ih (i + 1) j hlt
      have e : i + (j + 1) = (i + 1) + j := by omega
      rw [e]
      exact ⟨List.mem_cons_of_mem _ (List.mem_cons_of_mem _
               (List.mem_cons_of_mem _ H.1)),
             List.mem_cons_of_mem _ (List.mem_cons_of_mem _
               (List.mem_cons_of_mem _ H.2))⟩

/-- C3: every `render` binds the pipeline first, the texture bind group
at slot 0, (for Pentagon/Cube) the camera bind group at slot 1, the
elapsed-time bind group at slot 2 and the instance data at vertex slot 1,
binds each mesh's vertex buffer at slot 0 and its index buffer, and
issues exactly one indexed draw per mesh with instance count equal to the
instance-list length (1 for the non-instanced Char). -/
theorem render_protocol {α : Type} [Field α] [DecidableEq α]
    (p : PentagonState α) (cu : CubeState α) (ch : CharState) :
    (Pentagon.render p).head? = some RenderCmd.setPipeline ∧
    RenderCmd.setBindGroup 0 BindGroupId.texture ∈ Pentagon.render p ∧
    RenderCmd.setBindGroup 1 BindGroupId.camera ∈ Pentagon.render p ∧
    RenderCmd.setBindGroup 2 BindGroupId.elapsedTime ∈ Pentagon.render p ∧
    RenderCmd.setVertexBuffer 1 BufId.instanceBuf ∈ Pentagon.render p ∧
    (∀ j < p.model.meshes.length,
      RenderCmd.setVertexBuffer 0 (BufId.meshVertex j) ∈ Pentagon.render p ∧
      RenderCmd.setIndexBuffer (BufId.meshIndex j) IndexFormat.uint32
        ∈ Pentagon.render p) ∧
    (Pentagon.render p).filter isDraw
      = p.model.meshes.map
          (fun m => RenderCmd.drawIndexed 0 m.num_elements 0 0 p.instances.length) ∧
    (Cube.render cu).head? = some RenderCmd.setPipeline ∧
    RenderCmd.setBindGroup 0 BindGroupId.texture ∈ Cube.render cu ∧
    RenderCmd.setBindGroup 1 BindGroupId.camera ∈ Cube.render cu ∧
    RenderCmd.setBindGroup 2 BindGroupId.elapsedTime ∈ Cube.render cu ∧
    RenderCmd.setVertexBuffer 1 BufId.instanceBuf ∈ Cube.render cu ∧
    (∀ j < cu.model.meshes.length,
      RenderCmd.setVertexBuffer 0 (BufId.meshVertex j) ∈ Cube.render cu ∧
      RenderCmd.setIndexBuffer (BufId.meshIndex j) IndexFormat.uint32
        ∈ Cube.render cu) ∧
    (Cube.render cu).filter isDraw
      = cu.model.meshes.map
          (fun m => RenderCmd.drawIndexed 0 m.num_elements 0 0 cu.instances.length) ∧
    (Char.render ch).head? = some RenderCmd.setPipeline ∧
    RenderCmd.setBindGroup 0 BindGroupId.texture ∈ Char.render ch ∧
    (∀ j < ch.model.meshes.length,
      RenderCmd.setVertexBuffer 0 (BufId.meshVertex j) ∈ Char.render ch ∧
      RenderCmd.setIndexBuffer (BufId.meshIndex j) IndexFormat.uint32
        ∈ Char.render ch) ∧
    (Char.render ch).filter isDraw
      = ch.model.meshes.map
          (fun m => RenderCmd.drawIndexed 0 m.num_elements 0 0 1) := by
  refine ⟨rfl, by simp [Pentagon.render], by simp [Pentagon.render],
          by simp [Pentagon.render], by simp [Pentagon.render], ?_, ?_,
          rfl, by simp [Cube.render], by simp [Cube.render],
          by simp [Cube.render], by simp [Cube.render], ?_, ?_,
          rfl, by simp [Char.render], ?_, ?_⟩
  · intro j hj
    have H := meshCmds_mem_binds p.instances.length p.model.meshes 0 j hj
    rw [Nat.zero_add] at H
    exact ⟨by simp [Pentagon.render]; tauto, by simp [Pentagon.render]; tauto⟩
  · simp [Pentagon.render, List.filter, isDraw, meshCmds_filter_draw]
  · intro j hj
    have H := meshCmds_mem_binds cu.instances.length cu.model.meshes 0 j hj
    rw [Nat.zero_add] at H
    exact ⟨by simp [Cube.render]; tauto, by simp [Cube.render]; tauto⟩
  · simp [Cube.render, List.filter, isDraw, meshCmds_filter_draw]
  · intro j hj
    have H := meshCmds_mem_binds 1 ch.model.meshes 0 j hj
    rw [Nat.zero_add] at H
    exact ⟨by simp [Char.render]; tauto, by simp [Char.render]; tauto⟩
  · simp [Char.render, List.filter, isDraw, meshCmds_filter_draw]

/-- Witness for C3 at the concrete states. -/
theorem render_protocol_witness :
    (Pentagon.render pstate0).head? = some RenderCmd.setPipeline ∧
    RenderCmd.setBindGroup 2 BindGroupId.elapsedTime ∈ Pentagon.render pstate0 ∧
    (Pentagon.render pstate0).filter isDraw
      = pstate0.model.meshes.map
          (fun m => RenderCmd.drawIndexed 0 m.num_elements 0 0 pstate0.instances.length) ∧
    RenderCmd.setVertexBuffer 0 (BufId.meshVertex 0) ∈ Char.render chstate0 ∧
    (Char.render chstate0).filter isDraw
      = chstate0.model.meshes.map
          (fun m => RenderCmd.drawIndexed 0 m.num_elements 0 0 1) := by
  have H := render_protocol (α := ℚ) pstate0 cstate0 chstate0
  obtain ⟨h1, _, _, h4, _, _, h7, _, _, _, _, _, _, _, _, _, h17, h18⟩ := H
  exact ⟨h1, h4, h7, (h17 0 (by decide)).1, h18⟩

/-- Length of a flat_map over `N` rows whose blocks each have length
10. -/
theorem grid_length {β : Type} (f : Nat → List β) (hf : ∀ w, (f w).length = 10)
    (N : Nat) : ((List.range N).flatMap f).length = N * 10 := by
  induction N with
  | zero => rfl
  | succ n ih =>
    have h1 : (([n] : List Nat).flatMap f).length = 10 := by simp [hf]
    rw [List.range_succ, List.flatMap_append, List.length_append, ih, h1]
    omega

/-- Element `10 * z + x` of such a flat_map is element `x` of block `z`. -/
theorem grid_getElem {β : Type} (f : Nat → List β) (hf : ∀ w, (f w).length = 10) :
    ∀ N z x : Nat, z < N → x < 10 →
      ((List.range N).flatMap f)[10 * z + x]? = (f z)[x]? := by
  intro N
  induction N with
  | zero =>
    intro z x hz _
    exact absurd hz (Nat.not_lt_zero z)
  | succ n ih =>
    intro z x hz hx
    rw [List.range_succ, List.flatMap_append]
    by_cases hzn : z < n
    · rw [List.getElem?_append_left (by rw [grid_length f hf n]; omega)]
      exact ih z x hzn hx
    · have hz' : z = n := by omega
      subst hz'
      rw [List.getElem?_append_right (by rw [grid_length f hf z]; omega)]
      rw [grid_length f hf z]
      have e : 10 * z + x - z * 10 = x := by omega
      rw [e]
      simp only [List.flatMap_cons, List.flatMap_nil, List.append_nil]

/-- Element `10 * z + x` of a `rows × 10` grid generated by `g`. -/
theorem grid_getElem_map {β : Type} (g : Nat → Nat → β) (N z x : Nat)
    (hz : z < N) (hx : x < 10) :
    ((List.range N).flatMap fun w => (List.range 10).map (g w))[10 * z + x]?
      = some (g z x) := by
  have base := grid_getElem (fun w => (List.range 10).map (g w))
    (fun w => by rw [List.length_map, List.length_range]) N z x hz hx
  rw [base, List.getElem?_map, List.getElem?_range hx]
  rfl

/-- C4 amended: `create_instances(N)` for Pentagon and Cube produces
exactly `N * 10` instances; the instance at grid index `10 * z + x` sits
at the evenly spaced position (step 1 for Pentagon, 3 for Cube, at
height 2 resp. -2) displaced by the centering offset 5 — and every
instance, the center-of-grid one included, receives the axis-normalized
45-degree rotation: the zero-angle branch is unreachable because the
fixed nonzero height keeps every position away from the zero vector. -/
theorem create_instances_grid {α : Type} [Field α] [CharZero α] [DecidableEq α]
    (ops : RealOps α) (N : Nat) :
    (Pentagon.create_instances (α := α) ops N).length = N * 10 ∧
    (Cube.create_instances (α := α) ops N).length = N * 10 ∧
    (∀ z x : Nat, z < N → x < 10 →
      (Pentagon.create_instances (α := α) ops N)[10 * z + x]?
        = some ⟨⟨(x : α) - 5, 2, (z : α) - 5⟩,
            Rotation.fromAxisAngleDeg
              (vnormalize ops ⟨(x : α) - 5, 2, (z : α) - 5⟩) 45⟩) ∧
    (∀ z x : Nat, z < N → x < 10 →
      (Cube.create_instances (α := α) ops N)[10 * z + x]?
        = some ⟨⟨(x : α) * 3 - 5, -2, (z : α) * 3 - 5⟩,
            Rotation.fromAxisAngleDeg
              (vnormalize ops ⟨(x : α) * 3 - 5, -2, (z : α) * 3 - 5⟩) 45⟩) := by
  refine ⟨?_, ?_, ?_, ?_⟩
  · have L : ((List.range N).flatMap fun (w : Nat) => (List.range 10).map fun (v : Nat) =>
        (⟨vsub ⟨(v : α), 2, (w : α)⟩ INSTANCE_DISPLACEMENT,
          if vsub (⟨(v : α), 2, (w : α)⟩ : Vec3 α) INSTANCE_DISPLACEMENT = vzero then
            Rotation.fromAxisAngleDeg unitZ 0
          else
            Rotation.fromAxisAngleDeg
              (vnormalize ops
                (vsub ⟨(v : α), 2, (w : α)⟩ INSTANCE_DISPLACEMENT)) 45⟩ :
          InstanceS α)).length = N * 10 :=
      grid_length _ (fun w => by rw [List.length_map, List.length_range]) N
    exact L
  · have L : ((List.range N).flatMap fun (w : Nat) => (List.range 10).map fun (v : Nat) =>
        (⟨vsub ⟨((v * 3 : Nat) : α), -2, ((w * 3 : Nat) : α)⟩ INSTANCE_DISPLACEMENT,
          if vsub (⟨((v * 3 : Nat) : α), -2, ((w * 3 : Nat) : α)⟩ : Vec3 α)
              INSTANCE_DISPLACEMENT = vzero then
            Rotation.fromAxisAngleDeg unitZ 0
          else
            Rotation.fromAxisAngleDeg
              (vnormalize ops
                (vsub ⟨((v * 3 : Nat) : α), -2, ((w * 3 : Nat) : α)⟩
                  INSTANCE_DISPLACEMENT)) 45⟩ :
          InstanceS α)).length = N * 10 :=
      grid_length _ (fun w => by rw [List.length_map, List.length_range]) N
    exact L
  · intro z x hz hx
    have base := grid_getElem_map
      (g := fun w v =>
        (⟨vsub ⟨(v : α), 2, (w : α)⟩ INSTANCE_DISPLACEMENT,
          if vsub (⟨(v : α), 2, (w : α)⟩ : Vec3 α) INSTANCE_DISPLACEMENT = vzero then
            Rotation.fromAxisAngleDeg unitZ 0
          else
            Rotation.fromAxisAngleDeg
              (vnormalize ops
                (vsub ⟨(v : α), 2, (w : α)⟩ INSTANCE_DISPLACEMENT)) 45⟩ :
          InstanceS α))
      N z x hz hx
    have hpos : vsub (⟨(x : α), 2, (z : α)⟩ : Vec3 α) INSTANCE_DISPLACEMENT
        = ⟨(x : α) - 5, 2, (z : α) - 5⟩ := by
      simp only [vsub, INSTANCE_DISPLACEMENT, NUM_INSTANCES_PER_ROW, Vec3.mk.injEq]
      norm_num
    have hne2 : (⟨(x : α) - 5, 2, (z : α) - 5⟩ : Vec3 α) ≠ vzero := by
      intro h
      simp only [vzero, Vec3.mk.injEq] at h
      have h2 := h.2.1
      norm_num at h2
    exact base.trans (congrArg some (by simp only [hpos, if_neg hne2]))
  · intro z x hz hx
    have base := grid_getElem_map
      (g := fun w v =>
        (⟨vsub ⟨((v * 3 : Nat) : α), -2, ((w * 3 : Nat) : α)⟩ INSTANCE_DISPLACEMENT,
          if vsub (⟨((v * 3 : Nat) : α), -2, ((w * 3 : Nat) : α)⟩ : Vec3 α)
              INSTANCE_DISPLACEMENT = vzero then
            Rotation.fromAxisAngleDeg unitZ 0
          else
            Rotation.fromAxisAngleDeg
              (vnormalize ops
                (vsub ⟨((v * 3 : Nat) : α), -2, ((w * 3 : Nat) : α)⟩
                  INSTANCE_DISPLACEMENT)) 45⟩ :
          InstanceS α))
      N z x hz hx
    have hpos : vsub (⟨((x * 3 : Nat) : α), -2, ((z * 3 : Nat) : α)⟩ : Vec3 α)
        INSTANCE_DISPLACEMENT
        = ⟨(x : α) * 3 - 5, -2, (z : α) * 3 - 5⟩ := by
      simp only [vsub, INSTANCE_DISPLACEMENT, NUM_INSTANCES_PER_ROW, Vec3.mk.injEq]
      push_cast
      norm_num
    have hne2 : (⟨(x : α) * 3 - 5, -2, (z : α) * 3 - 5⟩ : Vec3 α) ≠ vzero := by
      intro h
      simp only [vzero, Vec3.mk.injEq] at h
      have h2 := h.2.1
      norm_num at h2
    exact base.trans (congrArg some (by simp only [hpos, if_neg hne2]))

/-- Counterexample for C4 as stated: the instance at the center-of-grid
index 55 (grid coordinates x = 5, z = 5, where the x and z components of
the position vanish) receives the axis-normalized 45-degree rotation,
not the zero-angle rotation — the fixed y component (2 for Pentagon, -2
for Cube) keeps the position nonzero, so the zero-angle branch never
fires. -/
theorem center_instance_rotation_cex :
    (Pentagon.create_instances ratOps 10)[55]?
      = some ⟨⟨0, 2, 0⟩,
          Rotation.fromAxisAngleDeg (vnormalize ratOps ⟨0, 2, 0⟩) 45⟩ ∧
    vnormalize ratOps (⟨0, 2, 0⟩ : Vec3 ℚ) = ⟨0, 1 / 2, 0⟩ ∧
    Rotation.fromAxisAngleDeg (vnormalize ratOps (⟨0, 2, 0⟩ : Vec3 ℚ)) 45
      ≠ Rotation.fromAxisAngleDeg unitZ 0 ∧
    (Cube.create_instances ratOps 10)[55]?
      = some ⟨⟨10, -2, 10⟩,
          Rotation.fromAxisAngleDeg (vnormalize ratOps ⟨10, -2, 10⟩) 45⟩ ∧
    Rotation.fromAxisAngleDeg (vnormalize ratOps (⟨10, -2, 10⟩ : Vec3 ℚ)) 45
      ≠ Rotation.fromAxisAngleDeg unitZ 0 := by
  have e55 : (55 : Nat) = 10 * 5 + 5 := rfl
  refine ⟨?_, ?_, ?_, ?_, ?_⟩
  · have base := grid_getElem_map
      (g := fun w v =>
        (⟨vsub ⟨(v : ℚ), 2, (w : ℚ)⟩ INSTANCE_DISPLACEMENT,
          if vsub (⟨(v : ℚ), 2, (w : ℚ)⟩ : Vec3 ℚ) INSTANCE_DISPLACEMENT = vzero then
            Rotation.fromAxisAngleDeg unitZ 0
          else
            Rotation.fromAxisAngleDeg
              (vnormalize ratOps
                (vsub ⟨(v : ℚ), 2, (w : ℚ)⟩ INSTANCE_DISPLACEMENT)) 45⟩ :
          InstanceS ℚ))
      10 5 5 (by norm_num) (by norm_num)
    rw [e55]
    have hpos : vsub (⟨((5 : Nat) : ℚ), 2, ((5 : Nat) : ℚ)⟩ : Vec3 ℚ)
        INSTANCE_DISPLACEMENT = ⟨0, 2, 0⟩ := by
      simp only [vsub, INSTANCE_DISPLACEMENT, NUM_INSTANCES_PER_ROW, Vec3.mk.injEq]
      norm_num
    have hne2 : (⟨0, 2, 0⟩ : Vec3 ℚ) ≠ vzero := by
      intro h
      simp only [vzero, Vec3.mk.injEq] at h
      have h2 := h.2.1
      norm_num at h2
    exact base.trans (congrArg some (by simp only [hpos, if_neg hne2]))
  · simp only [vnormalize, vdot, vscale, ratOps, Vec3.mk.injEq]
    norm_num
  · intro h
    injection h with h1 h2
    exact absurd h2 (by norm_num)
  · have base := grid_getElem_map
      (g := fun w v =>
        (⟨vsub ⟨((v * 3 : Nat) : ℚ), -2, ((w * 3 : Nat) : ℚ)⟩ INSTANCE_DISPLACEMENT,
          if vsub (⟨((v * 3 : Nat) : ℚ), -2, ((w * 3 : Nat) : ℚ)⟩ : Vec3 ℚ)
              INSTANCE_DISPLACEMENT = vzero then
            Rotation.fromAxisAngleDeg unitZ 0
          else
            Rotation.fromAxisAngleDeg
              (vnormalize ratOps
                (vsub ⟨((v * 3 : Nat) : ℚ), -2, ((w * 3 : Nat) : ℚ)⟩
                  INSTANCE_DISPLACEMENT)) 45⟩ :
          InstanceS ℚ))
      10 5 5 (by norm_num) (by norm_num)
    rw [e55]
    have hpos : vsub (⟨((5 * 3 : Nat) : ℚ), -2, ((5 * 3 : Nat) : ℚ)⟩ : Vec3 ℚ)
        INSTANCE_DISPLACEMENT = ⟨10, -2, 10⟩ := by
      simp only [vsub, INSTANCE_DISPLACEMENT, NUM_INSTANCES_PER_ROW, Vec3.mk.injEq]
      norm_num
    have hne2 : (⟨10, -2, 10⟩ : Vec3 ℚ) ≠ vzero := by
      intro h
      simp only [vzero, Vec3.mk.injEq] at h
      have h2 := h.2.1
      norm_num at h2
    exact base.trans (congrArg some (by simp only [hpos, if_neg hne2]))
  · intro h
    injection h with h1 h2
    exact absurd h2 (by norm_num)
/-- Witness for C4 (amended) at `N = 1`, grid cell `(z, x) = (0, 0)`. -/
theorem create_instances_grid_witness :
    (0 : Nat) < 1 ∧ (0 : Nat) < 10 ∧
    (Pentagon.create_instances ratOps 1).length = 1 * 10 ∧
    (Pentagon.create_instances ratOps 1)[10 * 0 + 0]?
      = some ⟨⟨((0 : Nat) : ℚ) - 5, 2, ((0 : Nat) : ℚ) - 5⟩,
          Rotation.fromAxisAngleDeg
            (vnormalize ratOps ⟨((0 : Nat) : ℚ) - 5, 2, ((0 : Nat) : ℚ) - 5⟩) 45⟩ := by
  have H := create_instances_grid (α := ℚ) ratOps 1
  exact ⟨by norm_num, by norm_num, H.1,
         H.2.2.1 0 0 (by norm_num) (by norm_num)⟩

/-- C5: `Pentagon::prepare_model` yields a single mesh with
`num_elements = 9` from the 5-vertex/9-index pentagon fan, and `render`
on such a model issues exactly one indexed draw call with index range
`0..9`, base vertex 0, first instance 0 and instance count equal to the
instance-list length. -/
theorem pentagon_fan_single_draw {α : Type} [Field α] [DecidableEq α]
    (p : PentagonState α) (hm : p.model = Pentagon.prepare_model) :
    pentagonVertices.length = 5 ∧ pentagonIndices.length = 9 ∧
    Pentagon.prepare_model.meshes.length = 1 ∧
    (Pentagon.render p).filter isDraw
      = [RenderCmd.drawIndexed 0 9 0 0 p.instances.length] := by
  refine ⟨rfl, rfl, rfl, ?_⟩
  simp [Pentagon.render, List.filter, isDraw, meshCmds_filter_draw, hm,
    Pentagon.prepare_model, pentagonIndices]

/-- Witness for C5 at the concrete pentagon state. -/
theorem pentagon_fan_single_draw_witness :
    pstate0.model = Pentagon.prepare_model ∧
    (Pentagon.render pstate0).filter isDraw
      = [RenderCmd.drawIndexed 0 9 0 0 pstate0.instances.length] := by
  have H := pentagon_fan_single_draw (α := ℚ) pstate0 rfl
  exact ⟨rfl, H.2.2.2⟩

end WgpuDemo
